import Mathlib

set_option maxHeartbeats 1000000

/-!
Shallow embedding of the schema-cache / field-validation core of the
jira-mcp-server repository (src/jira_mcp_server/schema_cache.py,
validators.py, tools/issue_tools.py, models.py), together with theorems
settling the stated claims about it.

Python runtime values are modelled by `PyValue`; Python dicts by
association lists with in-place update (`pyDictSet`), first-match lookup
(`pyDictGet`) and key deletion (`pyDictDel`), which coincide with Python
dict semantics on the duplicate-free lists the code builds.  Timestamps
(`datetime.now()`) are modelled as natural numbers passed explicitly.
-/

/-- Model of a Python runtime value as used by the validation code.
Floating-point numbers never participate in arithmetic here, only in
`isinstance` checks and message rendering, so a float is carried as its
printed representation. -/
inductive PyValue where
  | none
  | bool (b : Bool)
  | int (n : Int)
  | float (printed : String)
  | str (s : String)
  | list (xs : List PyValue)
  | dict (entries : List (String × PyValue))

/-- Python dict lookup `d.get(k)` / `d[k]`: first entry with the key. -/
def pyDictGet {α : Type} : List (String × α) → String → Option α
  | [], _ => Option.none
  | (k2, v) :: rest, k => if k2 = k then some v else pyDictGet rest k

/-- Python dict assignment `d[k] = v`: replaces in place when the key is
present, appends at the end otherwise. -/
def pyDictSet {α : Type} : List (String × α) → String → α → List (String × α)
  | [], k, v => [(k, v)]
  | (k2, v2) :: rest, k, v =>
    if k2 = k then (k, v) :: rest else (k2, v2) :: pyDictSet rest k v

/-- Python `del d[k]` / `d.pop(k, None)`: removes entries with the key. -/
def pyDictDel {α : Type} : List (String × α) → String → List (String × α)
  | [], _ => []
  | (k2, v2) :: rest, k =>
    if k2 = k then pyDictDel rest k else (k2, v2) :: pyDictDel rest k

/-- Build a dict from a list of pairs by repeated assignment (models a
Python dict comprehension: a later pair overwrites an earlier one). -/
def pyDictOfPairs {α : Type} (l : List (String × α)) : List (String × α) :=
  l.foldl (fun d kv => pyDictSet d kv.1 kv.2) []

/-- Python `"sep".join(xs)`. -/
def pyJoin (sep : String) : List String → String
  | [] => ""
  | [x] => x
  | x :: y :: xs => x ++ sep ++ pyJoin sep (y :: xs)

/-- Python `s.startswith(p)` (modelled on the character list). -/
def pyStartsWith (s p : String) : Bool :=
  p.data.isPrefixOf s.data

/-- Python `type(value).__name__`. -/
def typeName : PyValue → String
  | .none => "NoneType"
  | .bool _ => "bool"
  | .int _ => "int"
  | .float _ => "float"
  | .str _ => "str"
  | .list _ => "list"
  | .dict _ => "dict"

/-- Python `repr(value)`, to the extent the modelled code can observe it. -/
def pyRepr : PyValue → String
  | .none => "None"
  | .bool b => if b then "True" else "False"
  | .int n => toString n
  | .float printed => printed
  | .str s => "\x27" ++ s ++ "\x27"
  | .list xs => "[" ++ pyJoin ", " (xs.attach.map (fun v => pyRepr v.1)) ++ "]"
  | .dict es =>
    "\x7b" ++
      pyJoin ", " (es.attach.map (fun kv => "\x27" ++ kv.1.1 ++ "\x27: " ++ pyRepr kv.1.2)) ++
      "\x7d"
decreasing_by
  · simp_wf
    have := List.sizeOf_lt_of_mem v.2
    omega
  · simp_wf
    have h1 := List.sizeOf_lt_of_mem kv.2
    have h2 : sizeOf kv.1 = 1 + sizeOf kv.1.1 + sizeOf kv.1.2 := by
      obtain ⟨⟨a, b⟩, hm⟩ := kv
      simp
    omega

/-- Python `str(value)` as used in f-string interpolation. -/
def pyToStr : PyValue → String
  | .str s => s
  | v => pyRepr v

/-- Python truthiness of a string. -/
def truthyStr (s : String) : Bool := !(s = "")

/-- Python truthiness of an `Optional[str]`. -/
def truthyOptStr : Option String → Bool
  | some s => truthyStr s
  | Option.none => false

/-- Python `value in allowed` where `allowed` is a list of `str` values
(`==` between a non-`str` value and a `str` is `False`). -/
def pyInStrList (v : PyValue) (l : List String) : Bool :=
  l.any (fun s => match v with | .str t => t = s | _ => false)

/-- models.FieldType (models.py, T012). -/
inductive FieldType where
  | STRING | NUMBER | DATE | DATETIME | USER | OPTION | ARRAY | MULTI_SELECT
deriving DecidableEq

/-- models.FieldSchema (models.py, T012).  The pydantic type
`Optional[List[str]]` of `allowed_values` guarantees that entries are
strings whenever the model was successfully constructed. -/
structure FieldSchema where
  key : String
  name : String
  type : FieldType
  required : Bool
  allowed_values : Option (List String) := Option.none
  custom : Bool
  schema_type : Option String := Option.none
deriving DecidableEq

/-- models.FieldValidationError: carries the failing field name and the
reason; its Python `str()` is produced by `message` below. -/
structure FieldValidationError where
  field_name : String
  reason : String
deriving DecidableEq

/-- `str(FieldValidationError(...))`, per its `__init__`: the text
`Field <field_name> validation failed: <reason>`, with the field name
wrapped in single quotes. -/
def FieldValidationError.message (e : FieldValidationError) : String :=
  "Field \x27" ++ e.field_name ++ "\x27 validation failed: " ++ e.reason

/-- `isinstance(value, (int, float))`; Python `bool` is a subtype of
`int`, so booleans pass this check. -/
def isNumberInst : PyValue → Bool
  | .bool _ => true
  | .int _ => true
  | .float _ => true
  | _ => false

/-- `isinstance(value, str)`. -/
def isStrInst : PyValue → Bool
  | .str _ => true
  | _ => false

/-- `isinstance(value, list)`. -/
def isListInst : PyValue → Bool
  | .list _ => true
  | _ => false

/-- `value is None`. -/
def isNone : PyValue → Bool
  | .none => true
  | _ => false

/-- validators.FieldValidator._validate_field_value (validators.py). -/
def validate_field_value (value : PyValue) (schema : FieldSchema) : Bool × Option String :=
  if schema.required && isNone value then
    (false, some ("Field \x27" ++ schema.name ++ "\x27 is required"))
  else if isNone value then
    (true, Option.none)
  else
    match schema.type with
    | .NUMBER =>
      if !(isNumberInst value) then
        (false, some ("Field \x27" ++ schema.name ++ "\x27 must be a number, got " ++ typeName value))
      else (true, Option.none)
    | .STRING =>
      if !(isStrInst value) then
        (false, some ("Field \x27" ++ schema.name ++ "\x27 must be a string, got " ++ typeName value))
      else (true, Option.none)
    | .OPTION =>
      match schema.allowed_values with
      | some allowed =>
        if allowed.isEmpty then (true, Option.none)
        else if !(pyInStrList value allowed) then
          (false, some ("Invalid value \x27" ++ pyToStr value ++ "\x27 for field \x27" ++
            schema.name ++ "\x27. Allowed values: " ++ pyJoin ", " allowed))
        else (true, Option.none)
      | Option.none => (true, Option.none)
    | .MULTI_SELECT =>
      match value with
      | .list xs =>
        match schema.allowed_values with
        | some allowed =>
          if allowed.isEmpty then (true, Option.none)
          else
            match xs.find? (fun item => !(pyInStrList item allowed)) with
            | some item =>
              (false, some ("Invalid value \x27" ++ pyToStr item ++ "\x27 in field \x27" ++
                schema.name ++ "\x27. Allowed values: " ++ pyJoin ", " allowed))
            | Option.none => (true, Option.none)
        | Option.none => (true, Option.none)
      | _ => (false, some ("Field \x27" ++ schema.name ++ "\x27 must be a list"))
    | .ARRAY =>
      if !(isListInst value) then
        (false, some ("Field \x27" ++ schema.name ++ "\x27 must be an array"))
      else (true, Option.none)
    | .DATE =>
      if !(isStrInst value) then
        (false, some ("Field \x27" ++ schema.name ++ "\x27 must be a date string (ISO format)"))
      else (true, Option.none)
    | .DATETIME =>
      if !(isStrInst value) then
        (false, some ("Field \x27" ++ schema.name ++ "\x27 must be a datetime string (ISO format)"))
      else (true, Option.none)
    | .USER => (true, Option.none)

/-- The dict comprehension `{f.key: f for f in schema}` (a later entry
with the same key overwrites an earlier one). -/
def schema_map (schema : List FieldSchema) : List (String × FieldSchema) :=
  pyDictOfPairs (schema.map (fun f => (f.key, f)))

/-- validators.FieldValidator.validate_custom_field_values (T025):
iterates the field map in order, silently skips keys absent from the
schema, and collects the message of each failing value check. -/
def validate_custom_field_values (fields : List (String × PyValue))
    (schema : List FieldSchema) : List String :=
  match fields with
  | [] => []
  | (k, v) :: rest =>
    let tail := validate_custom_field_values rest schema
    match pyDictGet (schema_map schema) k with
    | Option.none => tail
    | some fs =>
      match validate_field_value v fs with
      | (true, _) => tail
      | (false, Option.none) => tail
      | (false, some m) => if m = "" then tail else m :: tail

/-- Required schema keys that are not present in the provided field map
(the set difference `required_keys - provided_keys`, as a list whose
membership is what the code observes). -/
def requiredMissingKeys (fields : List (String × PyValue))
    (schema : List FieldSchema) : List String :=
  ((schema.filter (fun f => f.required)).map (fun f => f.key)).filter
    (fun k => !(fields.any (fun kv => kv.1 = k)))

/-- validators.FieldValidator.validate_required_fields (T024): one
combined message listing the display names of all missing fields. -/
def validate_required_fields (fields : List (String × PyValue))
    (schema : List FieldSchema) : List String :=
  let missing := requiredMissingKeys fields schema
  if missing.isEmpty then []
  else
    ["Missing required fields: " ++
      pyJoin ", " ((schema.filter (fun f => missing.contains f.key)).map (fun f => f.name))]

/-- validators.FieldValidator.validate_fields: concatenates both error
lists and raises `FieldValidationError("validation", "; ".join(errors))`
when the result is non-empty (modelled as returning `some` error). -/
def validate_fields (fields : List (String × PyValue))
    (schema : List FieldSchema) : Option FieldValidationError :=
  let errors := validate_required_fields fields schema ++
    validate_custom_field_values fields schema
  if errors.isEmpty then Option.none
  else some { field_name := "validation", reason := pyJoin "; " errors }

/-- Raw field descriptor as consumed by `_get_field_schema`
(tools/issue_tools.py): the dict entries the normalization code reads.
`schemaType` stands for `field_data.get("schema", {}).get("type")`
(absent when either the nested dict or its `type` entry is absent). -/
structure RawAllowedValue where
  value : Option String := Option.none
  name : Option String := Option.none
deriving DecidableEq

/-- One raw field descriptor from the remote create-meta response. -/
structure RawField where
  key : Option String := Option.none
  name : Option String := Option.none
  required : Option Bool := Option.none
  custom : Option Bool := Option.none
  schemaType : Option String := Option.none
  allowedValues : Option (List RawAllowedValue) := Option.none
deriving DecidableEq

/-- The wire-type-to-FieldType mapping of `_get_field_schema`
(the if/elif chain; anything unrecognized defaults to STRING). -/
def mapFieldType (schema_type : String) : FieldType :=
  if schema_type = "number" then .NUMBER
  else if schema_type = "date" then .DATE
  else if schema_type = "datetime" then .DATETIME
  else if schema_type = "user" then .USER
  else if schema_type = "option" then .OPTION
  else if schema_type = "array" then .ARRAY
  else .STRING

/-- One allowed-values entry: `v.get("value") or v.get("name")`
(Python `or`: falls through when the left side is `None` or `""`). -/
def normalizeAllowedEntry (v : RawAllowedValue) : Option String :=
  match v.value with
  | some s => if s = "" then v.name else some s
  | Option.none => v.name

/-- Model of Python `str.isidentifier` for ASCII strings (the shapes the
modelled code ever constructs). -/
def isAsciiIdentifier (s : String) : Bool :=
  match s.data with
  | [] => false
  | c :: cs => (c.isAlpha || c = Char.ofNat 95) &&
      cs.all (fun d => d.isAlphanum || d = Char.ofNat 95)

/-- Extract a `List String` from a list of optional strings, failing if
any entry is absent (pydantic rejects a `None` element of `List[str]`). -/
def sequenceOptions : List (Option String) → Option (List String)
  | [] => some []
  | Option.none :: _ => Option.none
  | some s :: rest => (sequenceOptions rest).map (fun l => s :: l)

/-- Pydantic construction of `FieldSchema`: the `validate_key` validator
accepts an identifier-shaped key or one with the `customfield_` marker,
and `Optional[List[str]]` requires every allowed value to be a string. -/
def mkFieldSchema (key name : String) (type : FieldType) (required : Bool)
    (allowed_values : Option (List (Option String))) (custom : Bool)
    (schema_type : Option String) : Option FieldSchema :=
  if !(isAsciiIdentifier key || pyStartsWith key "customfield_") then Option.none
  else
    match allowed_values with
    | Option.none => some ⟨key, name, type, required, Option.none, custom, schema_type⟩
    | some l =>
      match sequenceOptions l with
      | Option.none => Option.none
      | some l2 => some ⟨key, name, type, required, some l2, custom, schema_type⟩

/-- `str(schema_info)` stored as the diagnostic `schema_type` string
(opaque; never used by validation logic). -/
def schemaInfoStr (r : RawField) : String :=
  match r.schemaType with
  | some t => "\x7b\x27type\x27: \x27" ++ t ++ "\x27\x7d"
  | Option.none => "\x7b\x7d"

/-- The per-descriptor body of the normalization loop in
`_get_field_schema` (tools/issue_tools.py lines 55-95), including the
pydantic `FieldSchema(...)` construction. -/
def normalizeField (field_data : RawField) : Option FieldSchema :=
  let field_key := field_data.key.getD ""
  let field_name := field_data.name.getD field_key
  let field_required := field_data.required.getD false
  let schema_type := field_data.schemaType.getD "string"
  let is_custom := field_data.custom.getD (pyStartsWith field_key "customfield_")
  let field_type := mapFieldType schema_type
  let allowed_values := field_data.allowedValues.map (fun l => l.map normalizeAllowedEntry)
  mkFieldSchema field_key field_name field_type field_required allowed_values is_custom
    (some (schemaInfoStr field_data))

/-- models.CachedSchema (models.py, T016); timestamps are naturals. -/
structure CachedSchema where
  project_key : String
  issue_type : String
  fields : List FieldSchema
  cached_at : Nat
  expires_at : Nat
deriving DecidableEq

/-- schema_cache.SchemaCache state: the dict, the fixed TTL and the two
counters.  `datetime.now()` is passed explicitly to `get`/`set`. -/
structure SchemaCache where
  cache : List (String × CachedSchema)
  ttl : Nat
  hits : Nat
  misses : Nat
deriving DecidableEq

/-- `SchemaCache.__init__(ttl_seconds)`. -/
def SchemaCache.init (ttl_seconds : Nat) : SchemaCache :=
  { cache := [], ttl := ttl_seconds, hits := 0, misses := 0 }

/-- `SchemaCache._make_key`: `f"{project_key}:{issue_type}"`. -/
def make_key (project_key issue_type : String) : String :=
  project_key ++ ":" ++ issue_type

/-- `SchemaCache.get` at a given current time: returns the looked-up
fields (if cached and unexpired) together with the updated cache state. -/
def SchemaCache.get (c : SchemaCache) (now : Nat) (project_key issue_type : String) :
    Option (List FieldSchema) × SchemaCache :=
  let key := make_key project_key issue_type
  match pyDictGet c.cache key with
  | Option.none => (Option.none, { c with misses := c.misses + 1 })
  | some entry =>
    if entry.expires_at ≤ now then
      (Option.none, { c with cache := pyDictDel c.cache key, misses := c.misses + 1 })
    else
      (some entry.fields, { c with hits := c.hits + 1 })

/-- `SchemaCache.set` at a given current time: stores a fresh
`CachedSchema` with `expires_at = now + ttl`, overwriting any entry
under the same key. -/
def SchemaCache.set (c : SchemaCache) (now : Nat) (project_key issue_type : String)
    (fields : List FieldSchema) : SchemaCache :=
  let entry : CachedSchema :=
    { project_key := project_key, issue_type := issue_type, fields := fields,
      cached_at := now, expires_at := now + c.ttl }
  { c with cache := pyDictSet c.cache (make_key project_key issue_type) entry }

/-- `SchemaCache.clear`. -/
def SchemaCache.clear (c : SchemaCache) (project_key issue_type : String) : SchemaCache :=
  { c with cache := pyDictDel c.cache (make_key project_key issue_type) }

/-- `SchemaCache.clear_all`. -/
def SchemaCache.clear_all (c : SchemaCache) : SchemaCache :=
  { c with cache := [], hits := 0, misses := 0 }

/-- The dict returned by `SchemaCache.get_stats`. -/
structure CacheStats where
  hits : Nat
  misses : Nat
  total_entries : Nat
deriving DecidableEq

/-- `SchemaCache.get_stats`. -/
def SchemaCache.get_stats (c : SchemaCache) : CacheStats :=
  { hits := c.hits, misses := c.misses, total_entries := c.cache.length }

/-- One cache operation, for reasoning about operation sequences. -/
inductive CacheOp where
  | get (now : Nat) (project_key issue_type : String)
  | set (now : Nat) (project_key issue_type : String) (fields : List FieldSchema)
  | clear (project_key issue_type : String)
  | clearAll
deriving DecidableEq

/-- Apply one operation to a cache state. -/
def SchemaCache.apply (c : SchemaCache) : CacheOp → SchemaCache
  | .get now p i => (SchemaCache.get c now p i).2
  | .set now p i fs => SchemaCache.set c now p i fs
  | .clear p i => SchemaCache.clear c p i
  | .clearAll => SchemaCache.clear_all c

/-- Run a sequence of operations. -/
def SchemaCache.run (c : SchemaCache) : List CacheOp → SchemaCache
  | [] => c
  | op :: ops => (c.apply op).run ops

/-- Whether an operation is a `get`. -/
def CacheOp.isGet : CacheOp → Bool
  | .get _ _ _ => true
  | _ => false

/-- Number of `get` operations in a run that record a hit. -/
def hitCount : SchemaCache → List CacheOp → Nat
  | _, [] => 0
  | c, op :: ops =>
    (match op with
     | .get now p i => if ((SchemaCache.get c now p i).1).isSome then 1 else 0
     | _ => 0) + hitCount (c.apply op) ops

/-- Number of `get` operations in a run that record a miss. -/
def missCount : SchemaCache → List CacheOp → Nat
  | _, [] => 0
  | c, op :: ops =>
    (match op with
     | .get now p i => if ((SchemaCache.get c now p i).1).isNone then 1 else 0
     | _ => 0) + missCount (c.apply op) ops

/-- `if cond: fields[k] = v` on a Python dict. -/
def pyAddIf (d : List (String × PyValue)) (cond : Bool) (k : String) (v : PyValue) :
    List (String × PyValue) :=
  if cond then pyDictSet d k v else d

/-- The field-map assembly of `jira_issue_create` (tools/issue_tools.py
lines 143-163): the three standard bindings, the truthiness-guarded
optional bindings, then the caller-supplied custom fields in order. -/
def buildCreateFields (project summary issue_type description : String)
    (priority assignee : Option String) (labels : Option (List String))
    (due_date : Option String) (custom_fields : List (String × PyValue)) :
    List (String × PyValue) :=
  let fields : List (String × PyValue) :=
    [("project", .dict [("key", .str project)]),
     ("summary", .str summary),
     ("issuetype", .dict [("name", .str issue_type)])]
  let fields := pyAddIf fields (truthyStr description) "description" (.str description)
  let fields := match priority with
    | some p => pyAddIf fields (truthyStr p) "priority" (.dict [("name", .str p)])
    | Option.none => fields
  let fields := match assignee with
    | some a => pyAddIf fields (truthyStr a) "assignee" (.dict [("name", .str a)])
    | Option.none => fields
  let fields := match labels with
    | some ls => pyAddIf fields (!ls.isEmpty) "labels" (.list (ls.map PyValue.str))
    | Option.none => fields
  let fields := match due_date with
    | some d => pyAddIf fields (truthyStr d) "duedate" (.str d)
    | Option.none => fields
  custom_fields.foldl (fun fs kv => pyDictSet fs kv.1 kv.2) fields

/-- Outcome of a create call: the returned/raised result, plus whether
the remote `create_issue` endpoint was invoked. -/
structure CreateOutcome where
  result : Except String PyValue
  createCalled : Bool

/-- tools/issue_tools.jira_issue_create after argument binding:
`create_issue` is the create endpoint of the remote client; `schemaResult`
is the outcome of `_get_field_schema` (ok on cache hit or successful
fetch, error otherwise).  Validation failure aborts with a wrapped
message before `create_issue` is invoked. -/
def jira_issue_create
    (create_issue : List (String × PyValue) → Except String PyValue)
    (schemaResult : Except String (List FieldSchema))
    (project summary issue_type description : String)
    (priority assignee : Option String) (labels : Option (List String))
    (due_date : Option String) (custom_fields : List (String × PyValue)) :
    CreateOutcome :=
  match schemaResult with
  | .error e => { result := .error ("Failed to get project schema: " ++ e), createCalled := false }
  | .ok schema =>
    let fields := buildCreateFields project summary issue_type description
      priority assignee labels due_date custom_fields
    match validate_fields fields schema with
    | some err =>
      { result := .error ("Validation failed: " ++ err.message), createCalled := false }
    | Option.none =>
      match create_issue fields with
      | .ok result => { result := .ok result, createCalled := true }
      | .error e => { result := .error ("Failed to create issue: " ++ e), createCalled := true }

/-- Concrete raw descriptor: marker-carrying key with an explicit
`custom: False` entry. -/
def rawCustomFalse : RawField :=
  { key := some "customfield_10001", name := some "Story Points",
    required := some false, custom := some false, schemaType := some "number" }

/-- Concrete raw descriptor: marker-carrying key, no `custom` entry. -/
def rawCustomAbsent : RawField :=
  { key := some "customfield_10002" }

/-- The normalization of `rawCustomAbsent`. -/
def fsCustomAbsent : FieldSchema :=
  ⟨"customfield_10002", "customfield_10002", FieldType.STRING, false, Option.none, true,
    some "\x7b\x7d"⟩

/-- Concrete raw descriptor: enumeration entry with a present but empty
`value` attribute next to a `name` attribute. -/
def rawEmptyValue : RawField :=
  { key := some "priority", name := some "Priority", schemaType := some "option",
    allowedValues := some [⟨some "", some "X"⟩] }

/-- The normalization of `rawEmptyValue`. -/
def fsPriorityX : FieldSchema :=
  ⟨"priority", "Priority", FieldType.OPTION, false, some ["X"], false,
    some "\x7b\x27type\x27: \x27option\x27\x7d"⟩

/-! ### Dictionary lemmas -/

theorem pyDictGet_set_self {α : Type} (d : List (String × α)) (k : String) (v : α) :
    pyDictGet (pyDictSet d k v) k = some v := by
  induction d with
  | nil => simp [pyDictSet, pyDictGet]
  | cons hd tl ih =>
    obtain ⟨k2, v2⟩ := hd
    by_cases h : k2 = k
    · simp [pyDictSet, h, pyDictGet]
    · simp [pyDictSet, h, pyDictGet, ih]

theorem pyDictGet_set_ne {α : Type} (d : List (String × α)) (k k2 : String) (v : α)
    (h : k ≠ k2) : pyDictGet (pyDictSet d k v) k2 = pyDictGet d k2 := by
  induction d with
  | nil => simp [pyDictSet, pyDictGet, h]
  | cons hd tl ih =>
    obtain ⟨ka, va⟩ := hd
    by_cases ha : ka = k
    · subst ha
      simp [pyDictSet, pyDictGet, h]
    · simp [pyDictSet, ha, pyDictGet, ih]

theorem pyDictGet_del_self {α : Type} (d : List (String × α)) (k : String) :
    pyDictGet (pyDictDel d k) k = Option.none := by
  induction d with
  | nil => simp [pyDictDel, pyDictGet]
  | cons hd tl ih =>
    obtain ⟨k2, v2⟩ := hd
    by_cases h : k2 = k
    · simp [pyDictDel, h, ih]
    · simp [pyDictDel, h, pyDictGet, ih]

theorem mem_of_pyDictGet {α : Type} {d : List (String × α)} {k : String} {v : α}
    (h : pyDictGet d k = some v) : (k, v) ∈ d := by
  induction d with
  | nil => simp [pyDictGet] at h
  | cons hd tl ih =>
    obtain ⟨k2, v2⟩ := hd
    by_cases h2 : k2 = k
    · subst h2
      simp [pyDictGet] at h
      subst h
      exact List.mem_cons_self _ _
    · simp [pyDictGet, h2] at h
      exact List.mem_cons_of_mem _ (ih h)

theorem pyDictGet_foldl_set_skip {α : Type} (l : List (String × α)) (d : List (String × α))
    (k : String) (h : ∀ kv ∈ l, kv.1 ≠ k) :
    pyDictGet (l.foldl (fun d kv => pyDictSet d kv.1 kv.2) d) k = pyDictGet d k := by
  induction l generalizing d with
  | nil => rfl
  | cons hd tl ih =>
    rw [List.foldl_cons, ih _ (fun kv hkv => h kv (List.mem_cons_of_mem _ hkv)),
      pyDictGet_set_ne _ _ _ _ (h hd (List.mem_cons_self _ _))]

theorem schema_map_get_none (schema : List FieldSchema) (k : String)
    (h : ∀ f ∈ schema, f.key ≠ k) :
    pyDictGet (schema_map schema) k = Option.none := by
  unfold schema_map pyDictOfPairs
  rw [pyDictGet_foldl_set_skip]
  · rfl
  · intro kv hkv
    obtain ⟨f, hf, rfl⟩ := List.mem_map.mp hkv
    exact h f hf

/-! ### String lemmas -/

theorem pyJoin_infix (sep : String) (l : List String) (e : String) (h : e ∈ l) :
    ∃ p q, pyJoin sep l = p ++ e ++ q := by
  induction l with
  | nil => simp at h
  | cons x xs ih =>
    cases xs with
    | nil =>
      simp at h
      subst h
      exact ⟨"", "", by simp [pyJoin, String.empty_append, String.append_empty]⟩
    | cons y ys =>
      rcases List.mem_cons.mp h with h1 | h2
      · subst h1
        refine ⟨"", sep ++ pyJoin sep (y :: ys), ?_⟩
        simp [pyJoin, String.empty_append, String.append_assoc]
      · obtain ⟨p, q, hpq⟩ := ih h2
        refine ⟨x ++ sep ++ p, q, ?_⟩
        simp only [pyJoin, hpq]
        simp [String.append_assoc]

theorem str_append_ne_empty (a b : String) (ha : a.length ≠ 0) : a ++ b ≠ "" := by
  intro he
  have := congrArg String.length he
  rw [String.length_append] at this
  simp at this
  omega

theorem msg_ne_empty (a x b c : String) (ha : a.length ≠ 0) : a ++ x ++ b ++ c ≠ "" := by
  intro he
  have := congrArg String.length he
  rw [String.length_append, String.length_append, String.length_append] at this
  simp at this
  omega

/-! ### Cache lemmas -/

theorem get_counters (c : SchemaCache) (now : Nat) (p i : String) :
    ((SchemaCache.get c now p i).2).hits =
      c.hits + (if ((SchemaCache.get c now p i).1).isSome then 1 else 0) ∧
    ((SchemaCache.get c now p i).2).misses =
      c.misses + (if ((SchemaCache.get c now p i).1).isNone then 1 else 0) := by
  unfold SchemaCache.get
  cases hpd : pyDictGet c.cache (make_key p i) with
  | none => simp [hpd]
  | some entry =>
    by_cases hexp : entry.expires_at ≤ now
    · simp [hpd, hexp]
    · simp [hpd, hexp]

theorem run_counters (ops : List CacheOp) (c : SchemaCache)
    (h : ∀ op ∈ ops, op ≠ CacheOp.clearAll) :
    (SchemaCache.run c ops).hits = c.hits + hitCount c ops ∧
    (SchemaCache.run c ops).misses = c.misses + missCount c ops := by
  induction ops generalizing c with
  | nil => simp [SchemaCache.run, hitCount, missCount]
  | cons op ops ih =>
    have htl : ∀ o ∈ ops, o ≠ CacheOp.clearAll :=
      fun o ho => h o (List.mem_cons_of_mem _ ho)
    obtain ⟨ih1, ih2⟩ := ih (c.apply op) htl
    cases op with
    | get now p i =>
      obtain ⟨g1, g2⟩ := get_counters c now p i
      constructor
      · simp only [SchemaCache.run, hitCount, SchemaCache.apply] at ih1 ⊢
        rw [ih1, g1]
        omega
      · simp only [SchemaCache.run, missCount, SchemaCache.apply] at ih2 ⊢
        rw [ih2, g2]
        omega
    | set now p i fs =>
      have ha : (c.apply (CacheOp.set now p i fs)).hits = c.hits := rfl
      have hb : (c.apply (CacheOp.set now p i fs)).misses = c.misses := rfl
      constructor
      · simp only [SchemaCache.run, hitCount]
        rw [ih1, ha]
        omega
      · simp only [SchemaCache.run, missCount]
        rw [ih2, hb]
        omega
    | clear p i =>
      have ha : (c.apply (CacheOp.clear p i)).hits = c.hits := rfl
      have hb : (c.apply (CacheOp.clear p i)).misses = c.misses := rfl
      constructor
      · simp only [SchemaCache.run, hitCount]
        rw [ih1, ha]
        omega
      · simp only [SchemaCache.run, missCount]
        rw [ih2, hb]
        omega
    | clearAll => exact absurd rfl (h _ (List.mem_cons_self _ _))

theorem hit_miss_total (ops : List CacheOp) (c : SchemaCache) :
    hitCount c ops + missCount c ops = (ops.filter CacheOp.isGet).length := by
  induction ops generalizing c with
  | nil => simp [hitCount, missCount]
  | cons op ops ih =>
    have hrec := ih (c.apply op)
    cases op with
    | get now p i =>
      have hfil : (List.filter CacheOp.isGet (CacheOp.get now p i :: ops)).length
          = (List.filter CacheOp.isGet ops).length + 1 := by
        simp [List.filter_cons, CacheOp.isGet]
      simp only [hitCount, missCount, hfil]
      cases hres : (SchemaCache.get c now p i).1 <;> simp [hres] <;> omega
    | set now p i fs =>
      have hfil : (List.filter CacheOp.isGet (CacheOp.set now p i fs :: ops)).length
          = (List.filter CacheOp.isGet ops).length := by
        simp [List.filter_cons, CacheOp.isGet]
      simp only [hitCount, missCount, hfil]
      omega
    | clear p i =>
      have hfil : (List.filter CacheOp.isGet (CacheOp.clear p i :: ops)).length
          = (List.filter CacheOp.isGet ops).length := by
        simp [List.filter_cons, CacheOp.isGet]
      simp only [hitCount, missCount, hfil]
      omega
    | clearAll =>
      have hfil : (List.filter CacheOp.isGet (CacheOp.clearAll :: ops)).length
          = (List.filter CacheOp.isGet ops).length := by
        simp [List.filter_cons, CacheOp.isGet]
      simp only [hitCount, missCount, hfil]
      omega

/-! ### Cache claims -/

/-- C2: for a TTL fixed at construction, an entry stored by `set` at time
T is present (and `get` returns the stored field list, recording a hit)
at every time strictly before T + ttl, while a `get` at or after T + ttl
evicts the entry, records a miss and returns absent.  The first conjunct
also shows the entry stays in the store until such a read occurs (lazy
expiry: nothing but a `get` removes it). -/
theorem cache_ttl_lazy_expiry (c : SchemaCache) (T τ : Nat) (p i : String)
    (fs : List FieldSchema) :
    pyDictGet ((SchemaCache.set c T p i fs)).cache (make_key p i) =
      some ⟨p, i, fs, T, T + c.ttl⟩ ∧
    (τ < T + c.ttl →
      ((SchemaCache.set c T p i fs).get τ p i).1 = some fs ∧
      ((SchemaCache.set c T p i fs).get τ p i).2.hits = c.hits + 1 ∧
      ((SchemaCache.set c T p i fs).get τ p i).2.misses = c.misses) ∧
    (T + c.ttl ≤ τ →
      ((SchemaCache.set c T p i fs).get τ p i).1 = Option.none ∧
      ((SchemaCache.set c T p i fs).get τ p i).2.misses = c.misses + 1 ∧
      ((SchemaCache.set c T p i fs).get τ p i).2.hits = c.hits ∧
      pyDictGet (((SchemaCache.set c T p i fs).get τ p i).2).cache (make_key p i) =
        Option.none) := by
  have hset2 : pyDictGet (pyDictSet c.cache (make_key p i)
      ⟨p, i, fs, T, T + c.ttl⟩) (make_key p i) =
      some ⟨p, i, fs, T, T + c.ttl⟩ := pyDictGet_set_self _ _ _
  refine ⟨hset2, ?_, ?_⟩
  · intro hlt
    have hnot : ¬(T + c.ttl ≤ τ) := by omega
    simp only [SchemaCache.get, SchemaCache.set, hset2]
    rw [if_neg hnot]
    exact ⟨rfl, rfl, rfl⟩
  · intro hge
    simp only [SchemaCache.get, SchemaCache.set, hset2]
    rw [if_pos hge]
    refine ⟨rfl, rfl, rfl, ?_⟩
    exact pyDictGet_del_self _ _

/-- Witness for C2 at a concrete input: TTL 10, entry set at time 5,
retrievable at time 14, evicted and absent at time 15. -/
theorem cache_ttl_lazy_expiry_witness :
    (((SchemaCache.init 10).set 5 "P" "T" []).get 14 "P" "T").1 = some [] ∧
    (((SchemaCache.init 10).set 5 "P" "T" []).get 15 "P" "T").1 = Option.none :=
  ⟨((cache_ttl_lazy_expiry (SchemaCache.init 10) 5 14 "P" "T" []).2.1 (by decide)).1,
   ((cache_ttl_lazy_expiry (SchemaCache.init 10) 5 15 "P" "T" []).2.2 (by decide)).1⟩

/-- C3 counterexample: the composite key is the colon-join
`f"{project_key}:{issue_type}"`, so the distinct pairs ("A:B", "C") and
("A", "B:C") collide; a `set` under the first changes what `get` returns
for the second. -/
theorem cache_key_collision_cex :
    (("A:B", "C") ≠ (("A", "B:C") : String × String)) ∧
    make_key "A:B" "C" = make_key "A" "B:C" ∧
    ((SchemaCache.init 100).get 0 "A" "B:C").1 = Option.none ∧
    ((((SchemaCache.init 100).set 0 "A:B" "C" []).get 0 "A" "B:C").1 = some []) := by
  decide

/-- C3 amended: `set(P1, I1, S1)` never changes the result of
`get(P2, I2)` whenever the rendered composite keys differ — in
particular for all distinct pairs whose components contain no colon
(covering P1 = P2 with I1 ≠ I2 and I1 = I2 with P1 ≠ P2). -/
theorem cache_set_isolated_keys (c : SchemaCache) (T τ : Nat) (p1 i1 p2 i2 : String)
    (fs : List FieldSchema) (h : make_key p1 i1 ≠ make_key p2 i2) :
    ((SchemaCache.set c T p1 i1 fs).get τ p2 i2).1 = (SchemaCache.get c τ p2 i2).1 := by
  have hne : pyDictGet (pyDictSet c.cache (make_key p1 i1)
      ⟨p1, i1, fs, T, T + c.ttl⟩) (make_key p2 i2) = pyDictGet c.cache (make_key p2 i2) :=
    pyDictGet_set_ne _ _ _ _ h
  simp only [SchemaCache.get, SchemaCache.set, hne]
  cases pyDictGet c.cache (make_key p2 i2) with
  | none => rfl
  | some entry =>
    by_cases hexp : entry.expires_at ≤ τ <;> simp [hexp]

/-- Witness for C3 amended at a concrete input (same project, different
issue type). -/
theorem cache_set_isolated_keys_witness :
    (((SchemaCache.init 10).set 0 "P" "I1" []).get 0 "P" "I2").1 =
      ((SchemaCache.init 10).get 0 "P" "I2").1 :=
  cache_set_isolated_keys (SchemaCache.init 10) 0 0 "P" "I1" "P" "I2" [] (by decide)

/-- C7: starting from zero counters (construction or just after
`clear_all`), any sequence of operations free of `clear_all` leaves
`hits` equal to the number of hit-recording gets and `misses` equal to
the number of miss-recording gets, their sum being the number of `get`
calls; `total_entries` is the live entry count of the store; and
`clear_all` empties the store and resets both counters. -/
theorem cache_stats_accounting (c : SchemaCache) (ops : List CacheOp)
    (hh : c.hits = 0) (hm : c.misses = 0)
    (hno : ∀ op ∈ ops, op ≠ CacheOp.clearAll) :
    (SchemaCache.run c ops).get_stats.hits = hitCount c ops ∧
    (SchemaCache.run c ops).get_stats.misses = missCount c ops ∧
    hitCount c ops + missCount c ops = (ops.filter CacheOp.isGet).length ∧
    (SchemaCache.run c ops).get_stats.total_entries = (SchemaCache.run c ops).cache.length ∧
    (∀ c2 : SchemaCache, (SchemaCache.clear_all c2).cache = [] ∧
      (SchemaCache.clear_all c2).hits = 0 ∧ (SchemaCache.clear_all c2).misses = 0) := by
  obtain ⟨h1, h2⟩ := run_counters ops c hno
  refine ⟨?_, ?_, hit_miss_total ops c, rfl, ?_⟩
  · show (SchemaCache.run c ops).hits = hitCount c ops
    omega
  · show (SchemaCache.run c ops).misses = missCount c ops
    omega
  · intro c2
    exact ⟨rfl, rfl, rfl⟩

/-- Witness for C7: a concrete run with one set, one hit, one expired
miss and one absent-key miss. -/
theorem cache_stats_accounting_witness :
    (SchemaCache.run (SchemaCache.init 10)
      [CacheOp.set 0 "P" "T" [], CacheOp.get 0 "P" "T", CacheOp.get 100 "P" "T",
       CacheOp.get 0 "X" "Y"]).get_stats.hits =
      hitCount (SchemaCache.init 10)
        [CacheOp.set 0 "P" "T" [], CacheOp.get 0 "P" "T", CacheOp.get 100 "P" "T",
         CacheOp.get 0 "X" "Y"] ∧
    (SchemaCache.run (SchemaCache.init 10)
      [CacheOp.set 0 "P" "T" [], CacheOp.get 0 "P" "T", CacheOp.get 100 "P" "T",
       CacheOp.get 0 "X" "Y"]).get_stats.misses =
      missCount (SchemaCache.init 10)
        [CacheOp.set 0 "P" "T" [], CacheOp.get 0 "P" "T", CacheOp.get 100 "P" "T",
         CacheOp.get 0 "X" "Y"] := by
  have h := cache_stats_accounting (SchemaCache.init 10)
    [CacheOp.set 0 "P" "T" [], CacheOp.get 0 "P" "T", CacheOp.get 100 "P" "T",
     CacheOp.get 0 "X" "Y"] rfl rfl (by decide)
  exact ⟨h.1, h.2.1⟩

/-! ### Validator claims -/

/-- Unknown keys contribute nothing: value validation of a field map all
of whose keys are absent from the schema yields no violations. -/
theorem validate_custom_unknown_empty (schema : List FieldSchema) :
    ∀ fields : List (String × PyValue),
      (∀ kv ∈ fields, ∀ f ∈ schema, f.key ≠ kv.1) →
      validate_custom_field_values fields schema = [] := by
  intro fields
  induction fields with
  | nil => intro _; rfl
  | cons kv rest ih =>
    intro hall
    have hnone : pyDictGet (schema_map schema) kv.1 = Option.none :=
      schema_map_get_none schema kv.1 (fun f hf => hall kv (List.mem_cons_self _ _) f hf)
    obtain ⟨k, v⟩ := kv
    simp only [validate_custom_field_values, hnone]
    exact ih (fun kv2 hk f hf => hall kv2 (List.mem_cons_of_mem _ hk) f hf)

/-- C8: entries of the field map whose key matches no schema entry are
silently skipped by value validation — the violations are exactly those
of the known-key sublist — and in particular a map containing only
unknown keys yields the empty violation list. -/
theorem unknown_fields_skipped (fields : List (String × PyValue))
    (schema : List FieldSchema) :
    (validate_custom_field_values fields schema =
      validate_custom_field_values
        (fields.filter (fun kv => (pyDictGet (schema_map schema) kv.1).isSome)) schema) ∧
    ((∀ kv ∈ fields, ∀ f ∈ schema, f.key ≠ kv.1) →
      validate_custom_field_values fields schema = []) := by
  constructor
  · induction fields with
    | nil => rfl
    | cons kv rest ih =>
      obtain ⟨k, v⟩ := kv
      cases h : pyDictGet (schema_map schema) k with
      | none =>
        simp only [validate_custom_field_values, h, List.filter_cons]
        simp [h, ih]
      | some fs =>
        have hfil : List.filter (fun kv => (pyDictGet (schema_map schema) kv.1).isSome)
              ((k, v) :: rest)
            = (k, v) :: List.filter (fun kv => (pyDictGet (schema_map schema) kv.1).isSome)
              rest := by
          simp [List.filter_cons, h]
        rw [hfil]
        simp only [validate_custom_field_values, h]
        rw [ih]
  · exact validate_custom_unknown_empty schema fields

/-- Witness for C8: a single unknown key against a one-field schema
yields no violations. -/
theorem unknown_fields_skipped_witness :
    validate_custom_field_values [("unknown_key", PyValue.int 1)]
      [⟨"summary", "Summary", FieldType.STRING, true, Option.none, false, Option.none⟩] = [] :=
  (unknown_fields_skipped [("unknown_key", PyValue.int 1)]
    [⟨"summary", "Summary", FieldType.STRING, true, Option.none, false, Option.none⟩]).2
    (by decide)

/-- C9: a schema entry of type NUMBER accepts the Python booleans True
and False without violation, because `isinstance(value, (int, float))`
holds for `bool` (a subtype of `int`). -/
theorem number_accepts_bool (b : Bool) (fs : FieldSchema)
    (h : fs.type = FieldType.NUMBER) :
    validate_field_value (PyValue.bool b) fs = (true, Option.none) ∧
    isNumberInst (PyValue.bool b) = true := by
  constructor
  · unfold validate_field_value
    simp [isNone, h, isNumberInst]
  · rfl

/-- Witness for C9: True against a concrete NUMBER field. -/
theorem number_accepts_bool_witness :
    validate_field_value (PyValue.bool true)
      ⟨"customfield_10001", "Story Points", FieldType.NUMBER, false, Option.none, true,
        Option.none⟩ = (true, Option.none) :=
  (number_accepts_bool true
    ⟨"customfield_10001", "Story Points", FieldType.NUMBER, false, Option.none, true,
      Option.none⟩ rfl).1

/-- C4: `validate_fields` fails exactly when the concatenation of the
required-field messages and the per-field value-violation messages is
non-empty; the reason of the raised error is the semicolon-join of that whole
list and its rendered message contains every individual message, never
just the first. -/
theorem validate_fields_aggregates_all_errors (fields : List (String × PyValue))
    (schema : List FieldSchema) :
    (validate_fields fields schema = Option.none ↔
      validate_required_fields fields schema ++ validate_custom_field_values fields schema
        = []) ∧
    (∀ err, validate_fields fields schema = some err →
      err.reason = pyJoin "; " (validate_required_fields fields schema ++
        validate_custom_field_values fields schema) ∧
      ∀ e ∈ validate_required_fields fields schema ++ validate_custom_field_values fields schema,
        ∃ p q, err.message = p ++ e ++ q) := by
  constructor
  · unfold validate_fields
    by_cases h : (validate_required_fields fields schema ++
        validate_custom_field_values fields schema).isEmpty
    · rw [if_pos h]
      simp only [true_iff]
      exact List.isEmpty_iff.mp h
    · rw [if_neg h]
      simp only [List.isEmpty_iff] at h
      simp [h]
  · intro err herr
    unfold validate_fields at herr
    by_cases h : (validate_required_fields fields schema ++
        validate_custom_field_values fields schema).isEmpty
    · rw [if_pos h] at herr
      exact absurd herr (by simp)
    · rw [if_neg h] at herr
      have herr2 := Option.some.inj herr
      subst herr2
      refine ⟨rfl, ?_⟩
      intro e he
      obtain ⟨p, q, hpq⟩ := pyJoin_infix "; " _ e he
      refine ⟨"Field \x27" ++ "validation" ++ "\x27 validation failed: " ++ p, q, ?_⟩
      show "Field \x27" ++ "validation" ++ "\x27 validation failed: " ++
        pyJoin "; " (validate_required_fields fields schema ++
          validate_custom_field_values fields schema) = _
      rw [hpq]
      simp [String.append_assoc]

/-- Witness for C4: an empty field map against a schema with one
required field (no value violations), where the error carries the join
of the full message list. -/
theorem validate_fields_aggregates_all_errors_witness :
    (⟨"validation", "Missing required fields: Due Date"⟩ : FieldValidationError).reason =
      pyJoin "; " (validate_required_fields []
          [⟨"duedate", "Due Date", FieldType.DATE, true, Option.none, false, Option.none⟩] ++
        validate_custom_field_values []
          [⟨"duedate", "Due Date", FieldType.DATE, true, Option.none, false, Option.none⟩]) ∧
    ∀ e ∈ validate_required_fields []
          [⟨"duedate", "Due Date", FieldType.DATE, true, Option.none, false, Option.none⟩] ++
        validate_custom_field_values []
          [⟨"duedate", "Due Date", FieldType.DATE, true, Option.none, false, Option.none⟩],
      ∃ p q, (⟨"validation", "Missing required fields: Due Date"⟩ :
        FieldValidationError).message = p ++ e ++ q :=
  (validate_fields_aggregates_all_errors []
    [⟨"duedate", "Due Date", FieldType.DATE, true, Option.none, false, Option.none⟩]).2
    ⟨"validation", "Missing required fields: Due Date"⟩ (by decide)


/-! ### Normalization claims -/

theorem sequenceOptions_eq_some (l : List (Option String)) (al : List String)
    (h : sequenceOptions l = some al) : l = al.map some := by
  induction l generalizing al with
  | nil =>
    simp only [sequenceOptions] at h
    obtain rfl := Option.some.inj h
    rfl
  | cons x xs ih =>
    cases x with
    | none => simp [sequenceOptions] at h
    | some s =>
      simp only [sequenceOptions] at h
      cases hseq : sequenceOptions xs with
      | none => rw [hseq] at h; simp at h
      | some tl =>
        rw [hseq, Option.map_some'] at h
        obtain rfl := Option.some.inj h
        simp [ih tl hseq]

/-- C5 counterexample: a raw descriptor whose key carries the
`customfield_` marker but whose own `custom` entry is `False` is
normalized with `custom = False` — `dict.get` uses the marker check only
as the default for an absent entry, not as a disjunct. -/
theorem normalize_custom_flag_cex :
    pyStartsWith "customfield_10001" "customfield_" = true ∧
    rawCustomFalse.key = some "customfield_10001" ∧
    rawCustomFalse.custom = some false ∧
    (normalizeField rawCustomFalse).map FieldSchema.custom = some false := by
  decide

/-- C5 amended: the normalized `custom` flag equals the own `custom`
entry of the raw descriptor when that entry is present; only when it is absent is
it derived from the `customfield_` key marker. -/
theorem normalize_custom_flag_amended (r : RawField) (fs : FieldSchema)
    (h : normalizeField r = some fs) :
    fs.custom = r.custom.getD (pyStartsWith (r.key.getD "") "customfield_") := by
  simp only [normalizeField, mkFieldSchema] at h
  split at h
  · exact absurd h (by simp)
  · split at h
    · obtain rfl := Option.some.inj h
      rfl
    · split at h
      · exact absurd h (by simp)
      · obtain rfl := Option.some.inj h
        rfl

/-- Witness for C5 amended: a raw descriptor with no `custom` entry and
a marker-carrying key normalizes with `custom = true`. -/
theorem normalize_custom_flag_amended_witness :
    fsCustomAbsent.custom =
      rawCustomAbsent.custom.getD
        (pyStartsWith (rawCustomAbsent.key.getD "") "customfield_") :=
  normalize_custom_flag_amended rawCustomAbsent fsCustomAbsent (by decide)

/-- C6 counterexample: an enumeration entry whose `value` attribute is
present but empty is mapped to its `name` attribute ("X"), not to the
present `value` ("") — Python `or` tests truthiness, not presence. -/
theorem normalize_allowed_values_cex :
    rawEmptyValue.allowedValues = some [⟨some "", some "X"⟩] ∧
    (normalizeField rawEmptyValue).map FieldSchema.allowed_values = some (some ["X"]) ∧
    ¬((normalizeField rawEmptyValue).map FieldSchema.allowed_values = some (some [""])) := by
  decide

/-- C6 amended: when the raw descriptor carries an enumeration, the
normalized `allowed_values` is its order-preserving image under
`normalizeAllowedEntry` (the `value` attribute when present and
non-empty, else the `name` attribute); when it carries none, the
normalized `allowed_values` is absent. -/
theorem normalize_allowed_values_amended (r : RawField) (fs : FieldSchema)
    (h : normalizeField r = some fs) :
    (r.allowedValues = Option.none → fs.allowed_values = Option.none) ∧
    (∀ l, r.allowedValues = some l →
      ∃ al, fs.allowed_values = some al ∧ l.map normalizeAllowedEntry = al.map some) := by
  cases hA : r.allowedValues with
  | none =>
    refine ⟨fun _ => ?_, fun l hl => Option.noConfusion hl⟩
    simp only [normalizeField, mkFieldSchema, hA, Option.map_none'] at h
    split at h
    · exact absurd h (by simp)
    · obtain rfl := Option.some.inj h
      rfl
  | some l =>
    refine ⟨fun hnone => Option.noConfusion hnone, fun l2 hl2 => ?_⟩
    injection hl2 with hll
    subst hll
    simp only [normalizeField, mkFieldSchema, hA, Option.map_some'] at h
    split at h
    · exact absurd h (by simp)
    · cases hseq : sequenceOptions (l.map normalizeAllowedEntry) with
      | none =>
        rw [hseq] at h
        exact absurd h (by simp)
      | some al =>
        rw [hseq] at h
        obtain rfl := Option.some.inj h
        exact ⟨al, rfl, sequenceOptions_eq_some _ _ hseq⟩

/-- Witness for C6 amended at the concrete enumeration
`[(value: "", name: "X")]`. -/
theorem normalize_allowed_values_amended_witness :
    ∃ al, fsPriorityX.allowed_values = some al ∧
      List.map normalizeAllowedEntry [⟨some "", some "X"⟩] = al.map some :=
  (normalize_allowed_values_amended rawEmptyValue fsPriorityX (by decide)).2
    [⟨some "", some "X"⟩] (by decide)

/-! ### Orchestration claims -/

/-- C1: whenever `validate_fields` rejects the assembled field map, the
create call aborts with the wrapped validation error and the remote
`create_issue` endpoint is never invoked. -/
theorem create_validation_blocks_network
    (create_issue : List (String × PyValue) → Except String PyValue)
    (schema : List FieldSchema) (project summary issue_type description : String)
    (priority assignee : Option String) (labels : Option (List String))
    (due_date : Option String) (custom_fields : List (String × PyValue))
    (err : FieldValidationError)
    (h : validate_fields (buildCreateFields project summary issue_type description
      priority assignee labels due_date custom_fields) schema = some err) :
    (jira_issue_create create_issue (Except.ok schema) project summary issue_type description
      priority assignee labels due_date custom_fields).createCalled = false ∧
    (jira_issue_create create_issue (Except.ok schema) project summary issue_type description
      priority assignee labels due_date custom_fields).result =
      Except.error ("Validation failed: " ++ err.message) := by
  constructor <;> simp only [jira_issue_create, h]

/-- Witness for C1: a schema with a required `duedate` field and a call
that omits it fails validation and never reaches the network. -/
theorem create_validation_blocks_network_witness :
    (jira_issue_create (fun _ => Except.ok PyValue.none)
      (Except.ok [⟨"duedate", "Due Date", FieldType.DATE, true, Option.none, false,
        Option.none⟩]) "PROJ" "S" "Task" "" Option.none Option.none Option.none Option.none
      []).createCalled = false ∧
    (jira_issue_create (fun _ => Except.ok PyValue.none)
      (Except.ok [⟨"duedate", "Due Date", FieldType.DATE, true, Option.none, false,
        Option.none⟩]) "PROJ" "S" "Task" "" Option.none Option.none Option.none Option.none
      []).result = Except.error ("Validation failed: " ++
        FieldValidationError.message ⟨"validation", "Missing required fields: Due Date"⟩) :=
  create_validation_blocks_network (fun _ => Except.ok PyValue.none)
    [⟨"duedate", "Due Date", FieldType.DATE, true, Option.none, false, Option.none⟩]
    "PROJ" "S" "Task" "" Option.none Option.none Option.none Option.none []
    ⟨"validation", "Missing required fields: Due Date"⟩ (by decide)

theorem pyDictGet_addIf_ne (d : List (String × PyValue)) (b : Bool) (k k2 : String)
    (v : PyValue) (h : k ≠ k2) :
    pyDictGet (pyAddIf d b k v) k2 = pyDictGet d k2 := by
  cases b <;> simp [pyAddIf, pyDictGet_set_ne _ _ _ _ h]

/-- The assembled field map always binds "project" to the object
`{"key": project}`: no other assembly step and (by Python keyword
binding, which rejects a second `project` keyword) no custom field can
overwrite it. -/
theorem buildCreateFields_project (project summary issue_type description : String)
    (priority assignee : Option String) (labels : Option (List String))
    (due_date : Option String) (custom_fields : List (String × PyValue))
    (hc : ∀ kv ∈ custom_fields, kv.1 ≠ "project") :
    pyDictGet (buildCreateFields project summary issue_type description priority assignee
      labels due_date custom_fields) "project" =
      some (PyValue.dict [("key", PyValue.str project)]) := by
  have hd : ∀ (d : List (String × PyValue)) (b : Bool) (v : PyValue),
      pyDictGet (pyAddIf d b "description" v) "project" = pyDictGet d "project" :=
    fun d b v => pyDictGet_addIf_ne d b _ _ v (by decide)
  have hp : ∀ (d : List (String × PyValue)) (b : Bool) (v : PyValue),
      pyDictGet (pyAddIf d b "priority" v) "project" = pyDictGet d "project" :=
    fun d b v => pyDictGet_addIf_ne d b _ _ v (by decide)
  have ha : ∀ (d : List (String × PyValue)) (b : Bool) (v : PyValue),
      pyDictGet (pyAddIf d b "assignee" v) "project" = pyDictGet d "project" :=
    fun d b v => pyDictGet_addIf_ne d b _ _ v (by decide)
  have hl : ∀ (d : List (String × PyValue)) (b : Bool) (v : PyValue),
      pyDictGet (pyAddIf d b "labels" v) "project" = pyDictGet d "project" :=
    fun d b v => pyDictGet_addIf_ne d b _ _ v (by decide)
  have hdd : ∀ (d : List (String × PyValue)) (b : Bool) (v : PyValue),
      pyDictGet (pyAddIf d b "duedate" v) "project" = pyDictGet d "project" :=
    fun d b v => pyDictGet_addIf_ne d b _ _ v (by decide)
  simp only [buildCreateFields]
  rw [pyDictGet_foldl_set_skip _ _ _ hc]
  cases priority <;> cases assignee <;> cases labels <;> cases due_date <;>
    simp [hd, hp, ha, hl, hdd, pyDictGet]

/-- A field whose key resolves in the schema and whose value check fails
with a non-empty message forces a non-empty violation list. -/
theorem validate_custom_nonempty (schema : List FieldSchema) :
    ∀ (fields : List (String × PyValue)) (k : String) (v : PyValue) (fsch : FieldSchema)
      (m : String), (k, v) ∈ fields → pyDictGet (schema_map schema) k = some fsch →
      validate_field_value v fsch = (false, some m) → m ≠ "" →
      validate_custom_field_values fields schema ≠ [] := by
  intro fields
  induction fields with
  | nil =>
    intro k v fsch m hmem
    simp at hmem
  | cons hd tl ih =>
    intro k v fsch m hmem hlk hval hm
    rcases List.mem_cons.mp hmem with heq | htl
    · obtain rfl := heq.symm
      simp only [validate_custom_field_values, hlk, hval]
      rw [if_neg hm]
      simp
    · have htail := ih k v fsch m htl hlk hval hm
      obtain ⟨k2, v2⟩ := hd
      simp only [validate_custom_field_values]
      cases hg : pyDictGet (schema_map schema) k2 with
      | none => exact htail
      | some fs2 =>
        show (match validate_field_value v2 fs2 with
          | (true, _) => validate_custom_field_values tl schema
          | (false, Option.none) => validate_custom_field_values tl schema
          | (false, some m) =>
            if m = "" then validate_custom_field_values tl schema
            else m :: validate_custom_field_values tl schema) ≠ []
        cases hvv : validate_field_value v2 fs2 with
        | mk bb oo =>
          cases bb with
          | true => exact htail
          | false =>
            cases oo with
            | none => exact htail
            | some m2 =>
              show (if m2 = "" then validate_custom_field_values tl schema
                else m2 :: validate_custom_field_values tl schema) ≠ []
              by_cases hm2 : m2 = ""
              · rw [if_pos hm2]
                exact htail
              · rw [if_neg hm2]
                simp

/-- C10 counterexample: with a schema mapping "issuetype" to a STRING
entry, a caller-supplied keyword named `issuetype` (distinct from the
declared `issue_type` parameter, so it lands in `**custom_fields`)
overwrites the assembled object binding with a string; validation then
passes and the create endpoint is reached, so the claimed property of
raising a validation error regardless of arguments fails. -/
theorem create_issuetype_override_cex :
    (jira_issue_create (fun _ => Except.ok PyValue.none)
      (Except.ok [⟨"issuetype", "Issue Type", FieldType.STRING, false, Option.none, false,
        Option.none⟩]) "PROJ" "Sum" "Task" "" Option.none Option.none Option.none Option.none
      [("issuetype", PyValue.str "Task")]).createCalled = true ∧
    validate_fields (buildCreateFields "PROJ" "Sum" "Task" "" Option.none Option.none
      Option.none Option.none [("issuetype", PyValue.str "Task")])
      [⟨"issuetype", "Issue Type", FieldType.STRING, false, Option.none, false, Option.none⟩]
      = Option.none := by
  constructor
  · rfl
  · decide

/-- C10 amended: when the schema field map resolves "project" to a
STRING entry, every create call raises a validation error before the
create endpoint is invoked — the assembled map always binds "project"
to the object `{"key": ...}`, which fails the STRING check, and Python
keyword binding prevents a custom field from rebinding "project" (the
hypothesis on `custom_fields`).  The analogous statement for
"issuetype" fails, since a custom keyword `issuetype` can overwrite the
object binding (see the counterexample). -/
theorem create_fails_on_string_project_schema
    (create_issue : List (String × PyValue) → Except String PyValue)
    (schema : List FieldSchema) (pfs : FieldSchema)
    (project summary issue_type description : String)
    (priority assignee : Option String) (labels : Option (List String))
    (due_date : Option String) (custom_fields : List (String × PyValue))
    (hlk : pyDictGet (schema_map schema) "project" = some pfs)
    (ht : pfs.type = FieldType.STRING)
    (hc : ∀ kv ∈ custom_fields, kv.1 ≠ "project") :
    (jira_issue_create create_issue (Except.ok schema) project summary issue_type description
      priority assignee labels due_date custom_fields).createCalled = false ∧
    ∃ e, (jira_issue_create create_issue (Except.ok schema) project summary issue_type
      description priority assignee labels due_date custom_fields).result =
      Except.error ("Validation failed: " ++ FieldValidationError.message e) := by
  have hget := buildCreateFields_project project summary issue_type description priority
    assignee labels due_date custom_fields hc
  have hmem := mem_of_pyDictGet hget
  have hval : validate_field_value (PyValue.dict [("key", PyValue.str project)]) pfs =
      (false, some ("Field \x27" ++ pfs.name ++ "\x27 must be a string, got " ++
        typeName (PyValue.dict [("key", PyValue.str project)]))) := by
    unfold validate_field_value
    rw [ht]
    simp [isNone, isStrInst]
  have hm : ("Field \x27" ++ pfs.name ++ "\x27 must be a string, got " ++
      typeName (PyValue.dict [("key", PyValue.str project)])) ≠ "" :=
    msg_ne_empty "Field \x27" pfs.name "\x27 must be a string, got "
      (typeName (PyValue.dict [("key", PyValue.str project)])) (by decide)
  have hne := validate_custom_nonempty schema _ _ _ _ _ hmem hlk hval hm
  have hne2 : validate_required_fields (buildCreateFields project summary issue_type
      description priority assignee labels due_date custom_fields) schema ++
      validate_custom_field_values (buildCreateFields project summary issue_type
      description priority assignee labels due_date custom_fields) schema ≠ [] := by
    intro hx
    exact hne (List.append_eq_nil.mp hx).2
  have hEmpty : (validate_required_fields (buildCreateFields project summary issue_type
      description priority assignee labels due_date custom_fields) schema ++
      validate_custom_field_values (buildCreateFields project summary issue_type
      description priority assignee labels due_date custom_fields) schema).isEmpty
      = false := by
    cases hx : (validate_required_fields (buildCreateFields project summary issue_type
        description priority assignee labels due_date custom_fields) schema ++
        validate_custom_field_values (buildCreateFields project summary issue_type
        description priority assignee labels due_date custom_fields) schema).isEmpty
    · rfl
    · exact absurd (List.isEmpty_iff.mp hx) hne2
  have hvf : validate_fields (buildCreateFields project summary issue_type description
      priority assignee labels due_date custom_fields) schema =
      some ⟨"validation", pyJoin "; " (validate_required_fields (buildCreateFields project
        summary issue_type description priority assignee labels due_date custom_fields)
        schema ++ validate_custom_field_values (buildCreateFields project summary issue_type
        description priority assignee labels due_date custom_fields) schema)⟩ := by
    simp only [validate_fields, hEmpty]
    rfl
  constructor
  · simp only [jira_issue_create, hvf]
  · refine ⟨⟨"validation", pyJoin "; " (validate_required_fields (buildCreateFields project
      summary issue_type description priority assignee labels due_date custom_fields)
      schema ++ validate_custom_field_values (buildCreateFields project summary issue_type
      description priority assignee labels due_date custom_fields) schema)⟩, ?_⟩
    simp only [jira_issue_create, hvf]

/-- Witness for C10 amended: a one-entry schema typing "project" as
STRING makes a plain create call fail validation without reaching the
endpoint. -/
theorem create_fails_on_string_project_schema_witness :
    (jira_issue_create (fun _ => Except.ok PyValue.none)
      (Except.ok [⟨"project", "Project", FieldType.STRING, false, Option.none, false,
        Option.none⟩]) "PROJ" "S" "Task" "" Option.none Option.none Option.none Option.none
      []).createCalled = false ∧
    ∃ e, (jira_issue_create (fun _ => Except.ok PyValue.none)
      (Except.ok [⟨"project", "Project", FieldType.STRING, false, Option.none, false,
        Option.none⟩]) "PROJ" "S" "Task" "" Option.none Option.none Option.none Option.none
      []).result = Except.error ("Validation failed: " ++ FieldValidationError.message e) :=
  create_fails_on_string_project_schema (fun _ => Except.ok PyValue.none)
    [⟨"project", "Project", FieldType.STRING, false, Option.none, false, Option.none⟩]
    ⟨"project", "Project", FieldType.STRING, false, Option.none, false, Option.none⟩
    "PROJ" "S" "Task" "" Option.none Option.none Option.none Option.none []
    (by decide) rfl (by decide)
